import Mathlib

/-!
Verification development for the client-metadata library.

This file gives a shallow embedding, in Lean 4, of the signal-collection and
fallback-aggregation pipeline of the library: the user-agent classifier
(detectPlatform, detectBrowser, detectDeviceType, parseUserAgent), the
fingerprint generator (getFingerprint and its clientjs-delegating variant),
the geolocation resolver (provider translation, validateLocationData,
getLocation, getLocationWithTimeout) and the aggregator (collectMetadata).

Modelling conventions:
- JavaScript strings are Lean String values; the case-insensitive regex
  tests of the source, which are all literal-substring tests, become a
  substring check over the lower-cased string.
- JavaScript numbers are modelled by JSVal: either undefined, NaN, one of
  the two infinities, or a finite value carried as a rational; the only
  operations the source performs on coordinates are order comparisons with
  integer bounds and NaN tests, which this model reflects exactly.
- Ambient browser state (navigator, screen, the network) is passed in as an
  explicit environment; a synchronous throw is an Except.error value.
- Asynchronous resolution is modelled by explicit outcome lists: each
  geolocation provider attempt is a recorded outcome together with the
  number of milliseconds it took to settle, so that timer races can be
  expressed arithmetically.
-/

/-- Boolean test that the pattern list leads the second list, mirroring a
character-by-character anchored match. -/
def leadsWith : List Char → List Char → Bool
  | [], _ => true
  | _ :: _, [] => false
  | a :: as, b :: bs => a == b && leadsWith as bs

/-- Boolean test that the pattern occurs contiguously somewhere in the
second list; this is the semantics of the literal-substring regex tests of
the source. -/
def hasSub (p : List Char) : List Char → Bool
  | [] => leadsWith p []
  | c :: cs => leadsWith p (c :: cs) || hasSub p cs

/-- Substring test over strings: pat occurs contiguously in s. -/
def containsSubstr (s pat : String) : Bool :=
  hasSub pat.data s.data

/-- Lower-casing of a string, the model of the toLowerCase call the
classifier applies before scanning its pattern tables. -/
def lowerStr (s : String) : String :=
  String.mk (s.data.map Char.toLower)

/-- Platform pattern table of detectPlatform, in the declared source order;
an entry matches when any of its alternatives occurs in the lower-cased
user agent (the source alternations iphone or ipod, and macintosh or
mac os x, become two-element alternative lists). -/
def platforms : List (List String × String) :=
  [ (["windows nt 10"], "Windows 10/11"),
    (["windows nt 6.3"], "Windows 8.1"),
    (["windows nt 6.2"], "Windows 8"),
    (["windows nt 6.1"], "Windows 7"),
    (["windows"], "Windows"),
    (["iphone", "ipod"], "iOS"),
    (["ipad"], "iPadOS"),
    (["macintosh", "mac os x"], "macOS"),
    (["android"], "Android"),
    (["ubuntu"], "Ubuntu"),
    (["debian"], "Debian"),
    (["fedora"], "Fedora"),
    (["centos"], "CentOS"),
    (["linux"], "Linux"),
    (["chromeos"], "Chrome OS"),
    (["freebsd"], "FreeBSD"),
    (["openbsd"], "OpenBSD"),
    (["netbsd"], "NetBSD"),
    (["sunos"], "Solaris") ]

/-- Match of one table entry against the lower-cased user agent. -/
def matchesPat (ua : String) (alts : List String) : Bool :=
  alts.any (fun p => containsSubstr ua p)

/-- First-match scan over a pattern table, the model of the for-loop with
early return that both detect functions use. -/
def firstMatch (ua : String) : List (List String × String) → Option String
  | [] => none
  | e :: rest => if matchesPat ua e.1 then some e.2 else firstMatch ua rest

/-- Embedding of detectPlatform of the user agent parser module. -/
def detectPlatform (userAgent : String) : String :=
  (firstMatch (lowerStr userAgent) platforms).getD "Unknown"

/-- Browser pattern table of detectBrowser, in the declared source order. -/
def browsers : List (List String × String) :=
  [ (["edg/"], "Edge"),
    (["edge/"], "Edge Legacy"),
    (["opr/"], "Opera"),
    (["brave/"], "Brave"),
    (["vivaldi/"], "Vivaldi"),
    (["chrome/"], "Chrome"),
    (["firefox/"], "Firefox"),
    (["safari/"], "Safari"),
    (["msie", "trident"], "Internet Explorer"),
    (["samsung"], "Samsung Internet"),
    (["ucbrowser"], "UC Browser") ]

/-- Embedding of detectBrowser: the special Safari carve-out (a safari
marker present and no chrome marker) is tested before the table scan,
exactly as in the source. -/
def detectBrowser (userAgent : String) : String :=
  let ua := lowerStr userAgent
  if containsSubstr ua "safari" && !containsSubstr ua "chrome" then
    "Safari"
  else
    (firstMatch ua browsers).getD "Unknown"

/-- Embedding of detectDeviceType: tablet markers first, then mobile
markers, defaulting to desktop. -/
def detectDeviceType (userAgent : String) : String :=
  let ua := lowerStr userAgent
  if matchesPat ua ["ipad", "tablet", "kindle", "playbook", "silk"] then
    "tablet"
  else if matchesPat ua
      ["mobile", "android", "iphone", "ipod", "blackberry", "opera mini",
       "iemobile", "wpdesktop"] then
    "mobile"
  else
    "desktop"

/-- Classification record produced by parseUserAgent. -/
structure UAInfo where
  userAgent : String
  platform : String
  browser : String
  deviceType : String
  deriving DecidableEq, Repr

/-- Embedding of parseUserAgent, applied to the ambient user agent string
passed in explicitly. -/
def parseUserAgent (ua : String) : UAInfo :=
  { userAgent := ua
    platform := detectPlatform ua
    browser := detectBrowser ua
    deviceType := detectDeviceType ua }

/-- Model of a JavaScript number-or-undefined slot: undefined, NaN, an
infinity, or a finite value carried as a rational. The only coordinate
operations the source performs (typeof, isNaN, order comparison against
integer bounds) are defined on this type exactly as JavaScript defines
them. -/
inductive JSVal where
  | undef
  | nan
  | posInf
  | negInf
  | num (q : ℚ)
  deriving DecidableEq, Repr

/-- Test mirroring typeof x being number: everything except undefined. -/
def JSVal.isNumber : JSVal → Bool
  | .undef => false
  | _ => true

/-- Test mirroring the isNaN check. -/
def JSVal.isNaNv : JSVal → Bool
  | .nan => true
  | _ => false

/-- Comparison v strictly below the rational bound, with the JavaScript
outcomes for NaN (always false) and the infinities. Undefined never reaches
a comparison in the source paths modelled here. -/
def JSVal.ltQ : JSVal → ℚ → Bool
  | .num x, q => decide (x < q)
  | .negInf, _ => true
  | _, _ => false

/-- Comparison v strictly above the rational bound, JavaScript style. -/
def JSVal.gtQ : JSVal → ℚ → Bool
  | .num x, q => decide (q < x)
  | .posInf, _ => true
  | _, _ => false

/-- Location record as built by the provider translation functions. The ip,
country and city slots are Option String so that an undefined field of the
third-party response (or a field the translation never sets) is
representable; coordinates are JSVal slots. -/
structure LocationData where
  ip : Option String
  country : Option String
  city : Option String
  latitude : JSVal
  longitude : JSVal
  deriving DecidableEq, Repr

/-- Truthiness of an optional string: undefined and the empty string are
falsy, any other string is truthy. -/
def truthy : Option String → Bool
  | none => false
  | some s => !s.isEmpty

/-- Embedding of validateLocationData of the geolocation module: require
truthy country and city; when either coordinate slot is not undefined,
demand that both are numbers, neither NaN, latitude within -90 to 90 and
longitude within -180 to 180. -/
def validateLocationData (l : LocationData) : Bool :=
  if !truthy l.country || !truthy l.city then
    false
  else if l.latitude ≠ JSVal.undef ∨ l.longitude ≠ JSVal.undef then
    if !l.latitude.isNumber || !l.longitude.isNumber
        || l.latitude.isNaNv || l.longitude.isNaNv
        || l.latitude.ltQ (-90) || l.latitude.gtQ 90
        || l.longitude.ltQ (-180) || l.longitude.gtQ 180 then
      false
    else
      true
  else
    true

/-- Fields of interest of an ipapi.co JSON response body. -/
structure IpapiResp where
  country_name : Option String
  country : Option String
  city : Option String
  latitude : JSVal
  longitude : JSVal
  deriving DecidableEq, Repr

/-- Fields of interest of an ip-api.com JSON response body. -/
structure IpApiComResp where
  country : Option String
  city : Option String
  lat : JSVal
  lon : JSVal
  deriving DecidableEq, Repr

/-- Short-circuiting or of two optional strings, mirroring the JavaScript
a or-else b expression over possibly-undefined strings. -/
def jsOrStr (a b : Option String) : Option String :=
  if truthy a then a else b

/-- Translation function of the ipapi.co provider entry: country comes from
country_name falling back to country, coordinates are taken verbatim, and
no ip field is ever produced. -/
def parseIpapi (d : IpapiResp) : LocationData :=
  { ip := none
    country := jsOrStr d.country_name d.country
    city := d.city
    latitude := d.latitude
    longitude := d.longitude }

/-- Translation function of the ip-api.com provider entry: lat and lon are
renamed to latitude and longitude, and no ip field is ever produced. -/
def parseIpApiCom (d : IpApiComResp) : LocationData :=
  { ip := none
    country := d.country
    city := d.city
    latitude := d.lat
    longitude := d.lon }

/-- Declared provider priority order of LOCATION_PROVIDERS. -/
def locationProviderNames : List String :=
  ["ipapi.co", "ip-api.com"]

/-- Outcome of one provider attempt as seen by the getLocation loop: the
value fetchFromProvider settled with (none models every caught failure:
network error, HTTP error, malformed body, missing fields, abort) together
with the number of milliseconds the attempt took to settle. -/
structure TimedResp where
  duration : Nat
  result : Option LocationData
  deriving DecidableEq, Repr

/-- Run summary of the getLocation provider loop: the value it resolves
with, the total elapsed milliseconds, and how many providers were
consulted. -/
structure LocRun where
  result : Option LocationData
  elapsed : Nat
  consulted : Nat
  deriving DecidableEq, Repr

/-- Embedding of getLocation: try each provider attempt in sequence;
return the first settled value that passes validateLocationData, never
consulting a further provider afterwards; resolve with none when the
attempts are exhausted. The elapsed and consulted fields instrument the
loop for the timing and call-count properties. -/
def getLocation : List TimedResp → LocRun
  | [] => { result := none, elapsed := 0, consulted := 0 }
  | r :: rest =>
    match r.result with
    | some l =>
      if validateLocationData l then
        { result := some l, elapsed := r.duration, consulted := 1 }
      else
        let k := getLocation rest
        { result := k.result, elapsed := r.duration + k.elapsed,
          consulted := k.consulted + 1 }
    | none =>
      let k := getLocation rest
      { result := k.result, elapsed := r.duration + k.elapsed,
        consulted := k.consulted + 1 }

/-- Embedding of getLocationWithTimeout: race the full provider sequence
against an independent timer of timeoutMs milliseconds; the sequence wins
only when it settles strictly before the timer fires, otherwise the race
resolves to undefined. -/
def getLocationWithTimeout (timeoutMs : Nat) (rs : List TimedResp) :
    Option LocationData :=
  let k := getLocation rs
  if k.elapsed < timeoutMs then k.result else none

/-- Validity of one provider attempt value, as the getLocation loop tests
it: a settled record that passes validateLocationData. -/
def isValidResp : Option LocationData → Bool
  | some l => validateLocationData l
  | none => false

/-- Coercion of an integer into the signed 32-bit range, the model of the
JavaScript bitwise-and of a value with itself. -/
def toInt32 (n : Int) : Int :=
  (n + 2 ^ 31) % 2 ^ 32 - 2 ^ 31

/-- One step of the rolling hash: shift left five bits as a 32-bit value,
subtract the previous hash, add the character code, and coerce back into
32 bits. -/
def jsHashStep (h : Int) (c : Nat) : Int :=
  toInt32 (toInt32 (h * 32) - h + c)

/-- Rolling hash of a string, folding jsHashStep over its characters from
the zero seed. -/
def jsHash (s : String) : Int :=
  s.data.foldl (fun h ch => jsHashStep h ch.toNat) 0

/-- Embedding of hashCharacteristics: join the stringified characteristics
with a pipe, hash, and print the absolute value in base sixteen. -/
def hashCharacteristics (cs : List String) : String :=
  String.mk (Nat.toDigits 16 (jsHash (String.intercalate "|" cs)).natAbs)

/-- Environment of the fingerprint module of the src directory: the two
characteristic lists its strategies read from ambient browser state, each
an Except value since reading ambient state can throw (for example when no
navigator object exists). The comprehensive list already carries the
sentinel strings of the individually wrapped canvas, WebGL and font
probes, which never throw out of their own try blocks. -/
structure FpEnvSrc where
  fastChars : Except String (List String)
  compChars : Except String (List String)
  deriving Repr

/-- Embedding of getFastFingerprint: hash the basic characteristics, or
propagate the throw from reading them. -/
def getFastFingerprint (env : FpEnvSrc) : Except String String :=
  env.fastChars.map hashCharacteristics

/-- Embedding of getComprehensiveFingerprint: hash the extended
characteristic list, or propagate the throw from reading it. -/
def getComprehensiveFingerprint (env : FpEnvSrc) : Except String String :=
  env.compChars.map hashCharacteristics

/-- Embedding of getFingerprint of src/fingerprint.ts: dispatch on the
comprehensive flag, and rewrap any internal throw in a new error whose
message is prefixed with a fixed text — the catch block rethrows instead
of demoting to a fallback tier. -/
def getFingerprint (comprehensive : Bool) (env : FpEnvSrc) :
    Except String String :=
  match (if comprehensive then getComprehensiveFingerprint env
         else getFastFingerprint env) with
  | .ok s => .ok s
  | .error msg => .error ("Fingerprint generation failed: " ++ msg)

/-- Environment of the clientjs-delegating fingerprint variant: the
outcome of the library call (already stringified), the basic
characteristic list of the fallback tier, and the hexadecimal current
timestamp used by the last-resort token. -/
structure FpEnvClientjs where
  clientjs : Except String String
  basicChars : Except String (List String)
  timestampHex : String
  deriving Repr

/-- Embedding of generateFallbackFingerprint: hash the basic components,
and on a throw fall back to the timestamp-derived token. -/
def generateFallbackFingerprint (env : FpEnvClientjs) : String :=
  match env.basicChars with
  | .ok cs => hashCharacteristics cs
  | .error _ => "fallback_" ++ env.timestampHex

/-- Embedding of the clientjs-delegating getFingerprint: use the library
value when it is a non-empty string, and demote every failure (a throw or
an empty value) to the fallback ladder. -/
def getFingerprintClientjs (env : FpEnvClientjs) : String :=
  match env.clientjs with
  | .ok s => if s.isEmpty then generateFallbackFingerprint env else s
  | .error _ => generateFallbackFingerprint env

/-- Location sub-object of the aggregate record: country and city copied
from the resolved record, each coordinate key present only when the source
slot was not undefined. -/
structure LocOut where
  country : Option String
  city : Option String
  latitude : Option JSVal
  longitude : Option JSVal
  deriving DecidableEq, Repr

/-- Aggregate metadata record. The ipAddress slot is Option String with
none modelling the JavaScript undefined value; the fingerprint and
location slots are Option values with none modelling an omitted key. -/
structure ClientMetadata where
  userAgent : String
  platform : String
  browser : String
  deviceType : String
  ipAddress : Option String
  fingerprint : Option String
  location : Option LocOut
  deriving DecidableEq, Repr

/-- Configuration options of collectMetadata. -/
structure CollectOptions where
  includeLocation : Bool
  includeFingerprint : Bool
  locationTimeout : Nat
  deriving DecidableEq, Repr

/-- Default option values of the source destructuring. -/
def defaultCollectOptions : CollectOptions :=
  { includeLocation := false, includeFingerprint := true,
    locationTimeout := 2000 }

/-- Environment of one collectMetadata call: the outcome of the
synchronous parseUserAgent call, the outcome of the getFingerprint call,
and the provider attempt outcomes the getLocation loop would consume. -/
structure CollectEnv where
  uaResult : Except String UAInfo
  fpResult : Except String String
  locResponses : List TimedResp
  deriving Repr

/-- Embedding of collectMetadata of the metadata module. parseUserAgent
runs first and its throw is the only rejection path. The location arm runs
the plain getLocation loop when includeLocation is set — the source passes
locationTimeout as an argument, but getLocation declares no parameter, so
the value is discarded and getLocationWithTimeout is never involved. The
fingerprint arm catches its own failure and demotes it to undefined. The
merge sets ipAddress to the ip slot of the resolved record when a location
was resolved (else the empty string), includes the fingerprint key only
for a truthy fingerprint value, and includes the location key only when a
record was resolved, with each coordinate key present only when defined. -/
def collectMetadata (opts : CollectOptions) (env : CollectEnv) :
    Except String ClientMetadata :=
  match env.uaResult with
  | .error e => .error e
  | .ok uaInfo =>
    let location : Option LocationData :=
      if opts.includeLocation then (getLocation env.locResponses).result
      else none
    let fp : Option String :=
      if opts.includeFingerprint then
        match env.fpResult with
        | .ok s => some s
        | .error _ => none
      else none
    .ok
      { userAgent := uaInfo.userAgent
        platform := uaInfo.platform
        browser := uaInfo.browser
        deviceType := uaInfo.deviceType
        ipAddress :=
          match location with
          | some l => l.ip
          | none => some ""
        fingerprint :=
          match fp with
          | some s => if s.isEmpty then none else some s
          | none => none
        location := location.map (fun l =>
          { country := l.country
            city := l.city
            latitude :=
              if l.latitude = JSVal.undef then none else some l.latitude
            longitude :=
              if l.longitude = JSVal.undef then none else some l.longitude }) }

/-- Spec-side description of the resolver outcome: the settled value of
the first provider attempt that passes validation, if any. -/
def firstValidResult (rs : List TimedResp) : Option LocationData :=
  (rs.find? (fun r => isValidResp r.result)).bind (fun r => r.result)

/-- Spec-side description of how many providers are consulted: one more
than the index of the first valid attempt, and all of them when every
attempt fails. -/
def consultedSpec (rs : List TimedResp) : Nat :=
  match rs.findIdx? (fun r => isValidResp r.result) with
  | some i => i + 1
  | none => rs.length

/-- Spec-side coordinate discipline: both coordinate slots absent, or both
finite numbers with latitude in -90 to 90 and longitude in -180 to 180. -/
def coordsValidSpec (l : LocationData) : Prop :=
  (l.latitude = JSVal.undef ∧ l.longitude = JSVal.undef) ∨
  (∃ la lo : ℚ, l.latitude = JSVal.num la ∧ l.longitude = JSVal.num lo ∧
    -90 ≤ la ∧ la ≤ 90 ∧ -180 ≤ lo ∧ lo ≤ 180)

/-- Environment in which reading the basic browser characteristics throws,
as happens when no navigator object exists. -/
def fpEnvNoNavigator : FpEnvSrc :=
  { fastChars := Except.error "navigator is not defined",
    compChars := Except.error "navigator is not defined" }

/-- Response body with which the first provider answers in the C2
scenario, shaped as the repository test suite shapes it. -/
def usResp : IpapiResp :=
  { country_name := some "United States", country := none,
    city := some "New York", latitude := JSVal.undef,
    longitude := JSVal.undef }

/-- Aggregation options selecting geolocation. -/
def optsWithLocation : CollectOptions :=
  { includeLocation := true, includeFingerprint := true,
    locationTimeout := 2000 }

/-- Environment of the C2 scenario: classification succeeds, the
fingerprint succeeds, and the first geolocation provider settles after
100 milliseconds with a record that passes validation. -/
def envLocSuccess : CollectEnv :=
  { uaResult := Except.ok (parseUserAgent "test-agent")
    fpResult := Except.ok "abc123def456"
    locResponses := [ { duration := 100, result := some (parseIpapi usResp) } ] }

/-- Valid record with which the slow provider of the C3 scenario answers,
translated from an ip-api.com response shape. -/
def parisLoc : LocationData :=
  parseIpApiCom
    { country := some "France", city := some "Paris",
      lat := JSVal.num 48, lon := JSVal.num 2 }

/-- Provider outcomes of the C3 scenario: the first provider settles with
a valid record, but only after 5000 milliseconds. -/
def slowLocResponses : List TimedResp :=
  [ { duration := 5000, result := some parisLoc } ]

/-- Aggregation options of the C3 scenario: geolocation on, fingerprint
off, location timeout 2000 milliseconds. -/
def optsTimeout2000 : CollectOptions :=
  { includeLocation := true, includeFingerprint := false,
    locationTimeout := 2000 }

/-- Environment of the C3 scenario. -/
def envSlowLoc : CollectEnv :=
  { uaResult := Except.ok (parseUserAgent "test-agent")
    fpResult := Except.ok "abc123def456"
    locResponses := slowLocResponses }

/-- User agent string of the Samsung Internet unit test of the repository. -/
def samsungTestUA : String :=
  "Mozilla/5.0 (Linux; Android 11; SM-G991B) AppleWebKit/537.36 (KHTML, like Gecko) SamsungBrowser/14.2 Chrome/87.0.4280.141 Mobile Safari/537.36"

/-- User agent string matching both the chromeos pattern and the generic
linux pattern. -/
def chromeOsLinuxUA : String :=
  "Mozilla/5.0 (X11; ChromeOS; Linux x86_64)"

/-- Environment of the C4 witness scenario: classification succeeds and
fingerprint generation throws. -/
def envC4 : CollectEnv :=
  { uaResult := Except.ok (parseUserAgent "test-agent")
    fpResult := Except.error "blocked"
    locResponses := [] }

theorem leadsWith_append (p t : List Char) : leadsWith p (p ++ t) = true := by
  induction p with
  | nil => rfl
  | cons a as ih => simp [leadsWith, ih]

theorem leadsWith_exists {p s : List Char} (h : leadsWith p s = true) :
    ∃ t, s = p ++ t := by
  induction p generalizing s with
  | nil => exact ⟨s, rfl⟩
  | cons a as ih =>
    cases s with
    | nil => simp [leadsWith] at h
    | cons b bs =>
      simp only [leadsWith, Bool.and_eq_true, beq_iff_eq] at h
      obtain ⟨rfl, h2⟩ := h
      obtain ⟨t, rfl⟩ := ih h2
      exact ⟨t, rfl⟩

theorem hasSub_exists {p s : List Char} (h : hasSub p s = true) :
    ∃ l t, s = l ++ p ++ t := by
  induction s with
  | nil =>
    simp only [hasSub] at h
    obtain ⟨t, ht⟩ := leadsWith_exists h
    exact ⟨[], t, by simpa using ht⟩
  | cons c cs ih =>
    simp only [hasSub, Bool.or_eq_true] at h
    rcases h with h | h
    · obtain ⟨t, ht⟩ := leadsWith_exists h
      exact ⟨[], t, by simpa using ht⟩
    · obtain ⟨l, t, rfl⟩ := ih h
      exact ⟨c :: l, t, rfl⟩

theorem hasSub_of_leadsWith {p s : List Char} (h : leadsWith p s = true) :
    hasSub p s = true := by
  cases s with
  | nil => simpa [hasSub] using h
  | cons c cs => simp [hasSub, h]

theorem hasSub_of_decomp (p l t : List Char) : hasSub p (l ++ p ++ t) = true := by
  induction l with
  | nil => exact hasSub_of_leadsWith (by simpa using leadsWith_append p t)
  | cons c cs ih =>
    have ih' : hasSub p (cs ++ (p ++ t)) = true := by simpa using ih
    simp [hasSub, ih']

/-- Occurrence of a longer pattern yields occurrence of any pattern it
starts with: needed to relate the chrome and the chrome-slash markers. -/
theorem hasSub_of_hasSub_append {p q s : List Char}
    (h : hasSub (p ++ q) s = true) : hasSub p s = true := by
  obtain ⟨l, t, rfl⟩ := hasSub_exists h
  have e : l ++ (p ++ q) ++ t = l ++ p ++ (q ++ t) := by simp
  rw [e]
  exact hasSub_of_decomp p l (q ++ t)

theorem consultedSpec_cons_neg {r : TimedResp} {rest : List TimedResp}
    (h : isValidResp r.result = false) :
    consultedSpec (r :: rest) = consultedSpec rest + 1 := by
  unfold consultedSpec
  rw [List.findIdx?_cons]
  simp only [h, if_false, Bool.false_eq_true, List.findIdx?_succ]
  cases hfi : rest.findIdx? (fun r => isValidResp r.result) <;> simp [hfi]

/-- C8: getLocation tries the providers strictly in declared order, its
value is the first attempt value passing validation with later providers
never consulted, and exhaustion of all providers resolves to undefined;
the loop is a total function, so no rejection path exists. -/
theorem getLocation_first_valid (rs : List TimedResp) :
    (getLocation rs).result = firstValidResult rs ∧
    (getLocation rs).consulted = consultedSpec rs := by
  induction rs with
  | nil => exact ⟨rfl, rfl⟩
  | cons r rest ih =>
    rcases ih with ⟨ih1, ih2⟩
    have ih1' : (getLocation rest).result =
        (List.find? (fun r => isValidResp r.result) rest).bind
          (fun r => r.result) := ih1
    by_cases h : isValidResp r.result = true
    · have hf : List.find? (fun r => isValidResp r.result) (r :: rest) =
          some r :=
        List.find?_cons_of_pos _ h
      cases hr : r.result with
      | none => rw [hr] at h; simp [isValidResp] at h
      | some l =>
        have hv : validateLocationData l = true := by
          rw [hr] at h; simpa [isValidResp] using h
        refine ⟨?_, ?_⟩
        · simp [getLocation, hr, hv, firstValidResult, hf]
        · unfold consultedSpec
          rw [List.findIdx?_cons]
          simp [getLocation, hr, hv, isValidResp]
    · have hb : ¬ (fun r => isValidResp r.result) r = true := h
      have hf : List.find? (fun r => isValidResp r.result) (r :: rest) =
          List.find? (fun r => isValidResp r.result) rest :=
        List.find?_cons_of_neg _ hb
      have h' : isValidResp r.result = false := by
        cases hx : isValidResp r.result
        · rfl
        · exact absurd hx h
      have hcons : consultedSpec (r :: rest) = consultedSpec rest + 1 :=
        consultedSpec_cons_neg h'
      cases hr : r.result with
      | none =>
        refine ⟨?_, ?_⟩
        · simp [getLocation, hr, firstValidResult, hf, ih1']
        · simp [getLocation, hr, hcons, ih2]
      | some l =>
        have hv : validateLocationData l = false := by
          rw [hr] at h'; simpa [isValidResp] using h'
        refine ⟨?_, ?_⟩
        · simp [getLocation, hr, hv, firstValidResult, hf, ih1']
        · simp [getLocation, hr, hv, hcons, ih2]

/-- C9: validateLocationData accepts a record exactly when country and
city are truthy and the coordinates obey the spec discipline; in
particular the boundary values latitude 90 and longitude -180 are
accepted while latitude 200, latitude -95, longitude 200 and NaN
coordinates are rejected even with country and city present. -/
theorem validateLocationData_iff :
    (∀ l : LocationData, validateLocationData l = true ↔
      (truthy l.country = true ∧ truthy l.city = true ∧ coordsValidSpec l)) ∧
    validateLocationData
      { ip := none, country := some "A", city := some "B",
        latitude := JSVal.num 90, longitude := JSVal.num (-180) } = true ∧
    validateLocationData
      { ip := none, country := some "A", city := some "B",
        latitude := JSVal.num 200, longitude := JSVal.num 0 } = false ∧
    validateLocationData
      { ip := none, country := some "A", city := some "B",
        latitude := JSVal.num (-95), longitude := JSVal.num 0 } = false ∧
    validateLocationData
      { ip := none, country := some "A", city := some "B",
        latitude := JSVal.num 0, longitude := JSVal.num 200 } = false ∧
    validateLocationData
      { ip := none, country := some "A", city := some "B",
        latitude := JSVal.nan, longitude := JSVal.nan } = false := by
  refine ⟨?_, by decide, by decide, by decide, by decide, by decide⟩
  intro l
  rcases l with ⟨ip, country, city, lat, lon⟩
  cases lat <;> cases lon <;>
    simp [validateLocationData, coordsValidSpec, JSVal.isNumber, JSVal.isNaNv,
          JSVal.ltQ, JSVal.gtQ, not_lt, and_assoc]

/-- C10: the classifier is a total function whose device type is always
one of desktop, mobile and tablet, and the empty user agent classifies to
the sentinel platform Unknown, browser Unknown and device type desktop. -/
theorem classifier_total_sentinels (ua : String) :
    ((parseUserAgent ua).deviceType = "desktop" ∨
     (parseUserAgent ua).deviceType = "mobile" ∨
     (parseUserAgent ua).deviceType = "tablet") ∧
    (parseUserAgent "").platform = "Unknown" ∧
    (parseUserAgent "").browser = "Unknown" ∧
    (parseUserAgent "").deviceType = "desktop" := by
  refine ⟨?_, by decide, by decide, by decide⟩
  unfold parseUserAgent detectDeviceType
  dsimp only
  split_ifs <;> simp

/-- C7 counterexample: an input containing both a safari marker and a
chrome marker on which the browser classification nevertheless resolves
to Safari, because the table entry matches the slashed safari token while
the chrome marker lacks its slashed form. -/
theorem detectBrowser_safari_cex :
    containsSubstr (lowerStr "chrome safari/605.1") "safari" = true ∧
    containsSubstr (lowerStr "chrome safari/605.1") "chrome" = true ∧
    detectBrowser "chrome safari/605.1" = "Safari" := by
  refine ⟨by decide, by decide, by decide⟩

/-- C7 amended: the classification resolves to Safari for every input with
a safari marker and no chrome marker; and whenever the slashed chrome
version marker is present the classification never resolves to Safari. -/
theorem detectBrowser_safari_amended (ua : String) :
    (containsSubstr (lowerStr ua) "safari" = true →
      containsSubstr (lowerStr ua) "chrome" = false →
      detectBrowser ua = "Safari") ∧
    (containsSubstr (lowerStr ua) "chrome/" = true →
      detectBrowser ua ≠ "Safari") := by
  constructor
  · intro h1 h2
    simp [detectBrowser, h1, h2]
  · intro hc
    have hc' : hasSub ("chrome".data ++ "/".data) (lowerStr ua).data = true := by
      have e : "chrome".data ++ "/".data = "chrome/".data := by decide
      rw [e]
      exact hc
    have hchrome : containsSubstr (lowerStr ua) "chrome" = true :=
      hasSub_of_hasSub_append hc'
    simp only [detectBrowser, hchrome, Bool.not_true, Bool.and_false,
               Bool.false_eq_true, if_false]
    simp only [browsers, firstMatch, matchesPat, List.any_cons, List.any_nil,
               Bool.or_false]
    split_ifs <;> simp_all

/-- C1: evaluation of the src fingerprint generator at a failing
environment, with and without the comprehensive flag. The catch block
wraps the internal failure in a new error and rethrows it to the caller
instead of demoting it to the basic-characteristics or timestamp fallback
tiers, so no string is returned at all. -/
theorem getFingerprint_rethrows_eval :
    getFingerprint false fpEnvNoNavigator =
      Except.error "Fingerprint generation failed: navigator is not defined" ∧
    getFingerprint true fpEnvNoNavigator =
      Except.error "Fingerprint generation failed: navigator is not defined" :=
  ⟨rfl, rfl⟩

/-- C2: evaluation of the aggregator when geolocation succeeds and is
included. The provider translation functions never produce an ip field,
so the merge copies the undefined ip slot of the resolved record into
ipAddress: the field is the undefined value, not a string. -/
theorem collectMetadata_ipAddress_undefined_eval :
    collectMetadata optsWithLocation envLocSuccess = Except.ok
      { userAgent := "test-agent", platform := "Unknown",
        browser := "Unknown", deviceType := "desktop",
        ipAddress := none,
        fingerprint := some "abc123def456",
        location := some
          { country := some "United States", city := some "New York",
            latitude := none, longitude := none } } := rfl

/-- C3: the race of getLocationWithTimeout with a 2000 millisecond timer
would resolve to undefined against the 5000 millisecond provider, yet the
aggregator still includes the location, because it passes locationTimeout
to the plain getLocation, whose empty parameter list discards the value,
and never invokes getLocationWithTimeout. -/
theorem collectMetadata_ignores_locationTimeout_eval :
    getLocationWithTimeout optsTimeout2000.locationTimeout slowLocResponses =
      none ∧
    collectMetadata optsTimeout2000 envSlowLoc = Except.ok
      { userAgent := "test-agent", platform := "Unknown",
        browser := "Unknown", deviceType := "desktop",
        ipAddress := none,
        fingerprint := none,
        location := some
          { country := some "France", city := some "Paris",
            latitude := some (JSVal.num 48),
            longitude := some (JSVal.num 2) } } :=
  ⟨by decide, rfl⟩

/-- C5: evaluation of the browser classification at a user agent carrying
both the samsung marker and the generic slashed chrome marker. The samsung
entry sits below the chrome entry in the table, so the scan resolves to
Chrome, not to Samsung Internet. -/
theorem detectBrowser_samsung_eval :
    containsSubstr (lowerStr samsungTestUA) "samsung" = true ∧
    containsSubstr (lowerStr samsungTestUA) "chrome/" = true ∧
    detectBrowser samsungTestUA = "Chrome" := by
  refine ⟨by decide, by decide, by decide⟩

/-- C6: evaluation of the platform classification at a user agent
matching both the chromeos and the linux patterns. The linux entry sits
above the chromeos entry in the table, so the scan resolves to Linux, not
to Chrome OS. -/
theorem detectPlatform_chromeos_eval :
    containsSubstr (lowerStr chromeOsLinuxUA) "chromeos" = true ∧
    containsSubstr (lowerStr chromeOsLinuxUA) "linux" = true ∧
    detectPlatform chromeOsLinuxUA = "Linux" := by
  refine ⟨by decide, by decide, by decide⟩

/-- C4: the aggregator rejects exactly when the classifier raises. A
classifier throw propagates as the rejection value; when the classifier
succeeds the promise resolves, whatever the fingerprint or geolocation
outcome, the resolved record always carries every classifier field, a
fingerprint failure merely omits the fingerprint key, and geolocation
exhaustion merely omits the location key. -/
theorem collectMetadata_rejects_iff_classifier
    (opts : CollectOptions) (env : CollectEnv) :
    (∀ e, env.uaResult = Except.error e →
      collectMetadata opts env = Except.error e) ∧
    (∀ u, env.uaResult = Except.ok u →
      ∃ m, collectMetadata opts env = Except.ok m ∧
        m.userAgent = u.userAgent ∧ m.platform = u.platform ∧
        m.browser = u.browser ∧ m.deviceType = u.deviceType ∧
        (∀ e, env.fpResult = Except.error e → m.fingerprint = none) ∧
        ((getLocation env.locResponses).result = none → m.location = none)) := by
  constructor
  · intro e he
    simp [collectMetadata, he]
  · intro u hu
    unfold collectMetadata
    rw [hu]
    dsimp only
    refine ⟨_, rfl, rfl, rfl, rfl, rfl, ?_, ?_⟩
    · intro e he
      cases hif : opts.includeFingerprint <;> simp [he, hif]
    · intro hloc
      cases hil : opts.includeLocation <;> simp [hloc, hil]

/-- Witness for C4: at a concrete environment with a throwing fingerprint
generator, the aggregator still resolves and the fingerprint key is
omitted. -/
theorem collectMetadata_rejects_iff_classifier_witness :
    ∃ m, collectMetadata defaultCollectOptions envC4 = Except.ok m ∧
      m.fingerprint = none := by
  obtain ⟨m, hm, _, _, _, _, hfp, _⟩ :=
    (collectMetadata_rejects_iff_classifier defaultCollectOptions envC4).2
      (parseUserAgent "test-agent") rfl
  exact ⟨m, hm, hfp "blocked" rfl⟩

/-- Witness for the amended C7 statement at concrete inputs: a pure
Safari marker string resolves to Safari, and a string with the slashed
chrome marker does not. -/
theorem detectBrowser_safari_amended_witness :
    detectBrowser "Safari/605.1" = "Safari" ∧
    detectBrowser "Chrome/90.0 Safari/605.1" ≠ "Safari" :=
  ⟨(detectBrowser_safari_amended "Safari/605.1").1 (by decide) (by decide),
   (detectBrowser_safari_amended "Chrome/90.0 Safari/605.1").2 (by decide)⟩

theorem toDigitsCore_length_le (b fuel n : Nat) (ds : List Char) :
    ds.length ≤ (Nat.toDigitsCore b fuel n ds).length := by
  induction fuel generalizing n ds with
  | zero => simp [Nat.toDigitsCore]
  | succ f ih =>
    unfold Nat.toDigitsCore
    dsimp only
    split
    · simp
    · have h2 := ih (n / b) ((n % b).digitChar :: ds)
      simp only [List.length_cons] at h2
      exact Nat.le_trans (Nat.le_succ _) h2

theorem toDigits_ne_nil (b n : Nat) : Nat.toDigits b n ≠ [] := by
  unfold Nat.toDigits Nat.toDigitsCore
  dsimp only
  split
  · simp
  · intro h
    have h1 := toDigitsCore_length_le b n (n / b) [Nat.digitChar (n % b)]
    rw [h] at h1
    simp at h1

theorem hashCharacteristics_ne_empty (cs : List String) :
    hashCharacteristics cs ≠ "" := by
  unfold hashCharacteristics
  intro h
  have h1 := congrArg String.data h
  simp only [String.data] at h1
  exact toDigits_ne_nil 16 _ h1

/-- The clientjs-delegating fingerprint generator always returns a
non-empty string: the library value is used only when non-empty, the
basic-characteristics hash is a non-empty hexadecimal print, and the
last-resort token carries a fixed prefix. This is the contract the
repository test suite asserts of the fingerprint module. -/
theorem getFingerprintClientjs_ne_empty (env : FpEnvClientjs) :
    getFingerprintClientjs env ≠ "" := by
  unfold getFingerprintClientjs generateFallbackFingerprint
  cases hc : env.clientjs with
  | ok s =>
    dsimp only
    by_cases hs : s.isEmpty
    · rw [if_pos hs]
      cases hb : env.basicChars with
      | ok cs => exact hashCharacteristics_ne_empty cs
      | error e =>
        intro h
        have h1 := congrArg String.data h
        simp at h1
    · rw [if_neg hs]
      intro h
      subst h
      exact absurd (by decide) hs
  | error e =>
    dsimp only
    cases hb : env.basicChars with
    | ok cs => exact hashCharacteristics_ne_empty cs
    | error e2 =>
      intro h
      have h1 := congrArg String.data h
      simp at h1

